import Mathlib

/-!
Verification of `jira_issue.py` (open-webui-tools): a Jira issue fetcher.

The development shallowly embeds the module: parsed JSON bodies become the
inductive `Json`; Python dict indexing (which can raise `KeyError` /
`TypeError`) becomes `Json.getKey` returning `Except`; the `requests`
transport is a `World` function from requests to responses; the host event
sink is a `Sink` that may fail (raise) on any call; `Tools.get_issue`
threads an explicit trace of HTTP requests and of events handed to the
sink, and returns `Except.error` exactly when a Python exception would
escape the entry point.  Exceptions are modelled by their message strings.
-/

/-- Parsed JSON values, as produced by `response.json()` / `json.loads`.
Numbers are restricted to integers; nothing in the claims depends on
floating-point values. -/
inductive Json where
  | null : Json
  | bool : Bool → Json
  | num : Int → Json
  | str : String → Json
  | arr : List Json → Json
  | obj : List (String × Json) → Json

/-- Python `d[k]`: `KeyError` when the key is absent from a dict,
`TypeError` when the subscripted value is not a dict (string keys never
index lists or strings). -/
def Json.getKey : Json → String → Except String Json
  | Json.obj kvs, k =>
    match kvs.lookup k with
    | some v => Except.ok v
    | none => Except.error ("KeyError: " ++ k)
  | _, k => Except.error ("TypeError: value is not subscriptable by " ++ k)

/-- Python `d.get(k, default)`: only dicts have `.get`; any other value
raises `AttributeError`. -/
def Json.getDefault : Json → String → Json → Except String Json
  | Json.obj kvs, k, d =>
    Except.ok (match kvs.lookup k with
      | some v => v
      | none => d)
  | _, _, _ => Except.error "AttributeError: value has no attribute get"

/-- Python iteration `for x in v`: lists yield their elements, strings
yield their one-character substrings, dicts yield their keys, everything
else raises `TypeError`. -/
def Json.iterList : Json → Except String (List Json)
  | Json.arr xs => Except.ok xs
  | Json.str s => Except.ok (s.data.map (fun c => Json.str (String.mk [c])))
  | Json.obj kvs => Except.ok (kvs.map (fun kv => Json.str kv.1))
  | _ => Except.error "TypeError: value is not iterable"

/-- The key list of a JSON object (empty for non-objects). -/
def Json.objKeys : Json → List String
  | Json.obj kvs => kvs.map (fun kv => kv.1)
  | _ => []

/-- UTF-8 encoding of a single character, the bytes of Python
`str.encode("utf-8")` for that character. -/
def utf8Bytes (c : Char) : List Nat :=
  let n := c.toNat
  if n < 0x80 then [n]
  else if n < 0x800 then [0xC0 + n / 64, 0x80 + n % 64]
  else if n < 0x10000 then [0xE0 + n / 4096, 0x80 + n / 64 % 64, 0x80 + n % 64]
  else [0xF0 + n / 262144, 0x80 + n / 4096 % 64, 0x80 + n / 64 % 64, 0x80 + n % 64]

/-- Python `s.encode("utf-8")` as a list of byte values. -/
def strBytes (s : String) : List Nat :=
  s.data.flatMap utf8Bytes

/-- The standard base64 alphabet. -/
def b64Alphabet : String :=
  "ABCDEFGHIJKLMNOPQRSTUVWXYZabcdefghijklmnopqrstuvwxyz0123456789+/"

/-- Character of the base64 alphabet at a 6-bit index. -/
def b64Char (n : Nat) : Char :=
  b64Alphabet.data.getD n 'A'

/-- Standard base64 of a byte list with `=` padding, the behaviour of
Python `base64.b64encode`. -/
def b64encodeBytes : List Nat → String
  | [] => ""
  | [a] =>
    String.mk [b64Char (a / 4), b64Char (a % 4 * 16)] ++ "=="
  | [a, b] =>
    String.mk [b64Char (a / 4), b64Char (a % 4 * 16 + b / 16), b64Char (b % 16 * 4)] ++ "="
  | a :: b :: c :: rest =>
    String.mk [b64Char (a / 4), b64Char (a % 4 * 16 + b / 16),
               b64Char (b % 16 * 4 + c / 64), b64Char (c % 64)] ++ b64encodeBytes rest

/-- Python `base64.b64encode(s.encode("utf-8")).decode("utf-8")`. -/
def b64ofString (s : String) : String :=
  b64encodeBytes (strBytes s)

/-- Python `sep.join(parts)`. -/
def pyJoin (sep : String) : List String → String
  | [] => ""
  | [x] => x
  | x :: y :: rest => x ++ sep ++ pyJoin sep (y :: rest)

/-- A run of `n` spaces. -/
def spaces (n : Nat) : String :=
  String.mk (List.replicate n ' ')

/-- Lower-case hexadecimal digit. -/
def hexDigit (n : Nat) : Char :=
  "0123456789abcdef".data.getD n '0'

/-- A `\uXXXX` escape for a code unit below 0x10000. -/
def uEsc (n : Nat) : String :=
  "\\u" ++ String.mk [hexDigit (n / 4096 % 16), hexDigit (n / 256 % 16),
                      hexDigit (n / 16 % 16), hexDigit (n % 16)]

/-- Escape of one character inside a JSON string literal, following
Python `json.dumps` with its default `ensure_ascii=True`: printable ASCII
other than quote and backslash passes through, everything else is escaped
(astral characters as a surrogate pair). -/
def escapeChar (c : Char) : String :=
  if c = '"' then "\\\""
  else if c = '\\' then "\\\\"
  else if c = '\n' then "\\n"
  else if c = '\r' then "\\r"
  else if c = '\t' then "\\t"
  else if c.toNat = 8 then "\\b"
  else if c.toNat = 12 then "\\f"
  else if c.toNat < 0x20 then uEsc c.toNat
  else if c.toNat < 0x7f then String.mk [c]
  else if c.toNat < 0x10000 then uEsc c.toNat
  else uEsc (0xD800 + (c.toNat - 0x10000) / 1024) ++ uEsc (0xDC00 + (c.toNat - 0x10000) % 1024)

/-- Body of a JSON string literal as emitted by `json.dumps`. -/
def jsonEscape (s : String) : String :=
  String.join (s.data.map escapeChar)

/-- Python `repr` escape inside a single-quoted string: backslash and
single quote are escaped; other escapes of exotic characters are not
modelled (no claim depends on them). -/
def reprEscape (s : String) : String :=
  String.join (s.data.map (fun c =>
    if c = '\\' then "\\\\" else if c = '\x27' then "\\\x27" else String.mk [c]))

mutual

/-- Python `repr` of a parsed-JSON value: `None`, `True`, `False`,
decimal integers, single-quoted strings, and recursively rendered lists
and dicts. -/
def pyRepr : Json → String
  | Json.null => "None"
  | Json.bool true => "True"
  | Json.bool false => "False"
  | Json.num n => toString n
  | Json.str s => "\x27" ++ reprEscape s ++ "\x27"
  | Json.arr xs => "[" ++ pyReprList xs ++ "]"
  | Json.obj kvs => "\x7b" ++ pyReprObj kvs ++ "\x7d"

/-- Comma-separated `repr` of list elements. -/
def pyReprList : List Json → String
  | [] => ""
  | [x] => pyRepr x
  | x :: y :: rest => pyRepr x ++ ", " ++ pyReprList (y :: rest)

/-- Comma-separated `repr` of dict entries. -/
def pyReprObj : List (String × Json) → String
  | [] => ""
  | [(k, v)] => "\x27" ++ reprEscape k ++ "\x27: " ++ pyRepr v
  | (k, v) :: e :: rest =>
    "\x27" ++ reprEscape k ++ "\x27: " ++ pyRepr v ++ ", " ++ pyReprObj (e :: rest)

end

/-- Python `str` of a parsed-JSON value, the conversion an f-string
applies: a string is itself, anything else is its `repr`. -/
def pyStr : Json → String
  | Json.str s => s
  | v => pyRepr v

mutual

/-- Python `json.dumps(v, indent=2)` at nesting depth `ind` (the default
`ensure_ascii=True` escaping, item separator `,` and key separator `: `,
which are the defaults when `indent` is given). -/
def dumpVal (ind : Nat) : Json → String
  | Json.null => "null"
  | Json.bool true => "true"
  | Json.bool false => "false"
  | Json.num n => toString n
  | Json.str s => "\"" ++ jsonEscape s ++ "\""
  | Json.arr [] => "[]"
  | Json.arr (x :: xs) =>
    "[\n" ++ spaces (ind + 2) ++ dumpVal (ind + 2) x ++ dumpArr (ind + 2) xs
      ++ "\n" ++ spaces ind ++ "]"
  | Json.obj [] => "\x7b\x7d"
  | Json.obj ((k, v) :: kvs) =>
    "\x7b\n" ++ spaces (ind + 2) ++ "\"" ++ jsonEscape k ++ "\": " ++ dumpVal (ind + 2) v
      ++ dumpObj (ind + 2) kvs ++ "\n" ++ spaces ind ++ "\x7d"

/-- Remaining array items, each on its own indented line. -/
def dumpArr (ind : Nat) : List Json → String
  | [] => ""
  | x :: xs => ",\n" ++ spaces ind ++ dumpVal ind x ++ dumpArr ind xs

/-- Remaining object entries, each on its own indented line. -/
def dumpObj (ind : Nat) : List (String × Json) → String
  | [] => ""
  | (k, v) :: kvs =>
    ",\n" ++ spaces ind ++ "\"" ++ jsonEscape k ++ "\": " ++ dumpVal ind v ++ dumpObj ind kvs

end

/-- Python `json.dumps(v, indent=2)`. -/
def pyJsonDumps (v : Json) : String :=
  dumpVal 0 v

/-- One entry of the list built by `Jira.get_comments`: the values of
`comment["author"]["displayName"]`, `comment["body"]`,
`comment["created"]`, copied verbatim (they are JSON values; the code
never coerces them). -/
structure Comment where
  author : Json
  body : Json
  created : Json

/-- The dict literal `Jira.get_comments` appends for one comment, with
its keys in insertion order. -/
def Comment.toJson (c : Comment) : Json :=
  Json.obj [("author", c.author), ("body", c.body), ("created", c.created)]

/-- The dict returned by `Jira.get_issue`, with statically known keys. -/
structure IssueRecord where
  title : Json
  description : Json
  status : Json
  link : String
  comments : List Comment

/-- The `Jira.get_issue` return dict as a JSON value, keys in insertion
order: title, description, status, link, comments. -/
def IssueRecord.toJson (r : IssueRecord) : Json :=
  Json.obj [("title", r.title), ("description", r.description), ("status", r.status),
            ("link", Json.str r.link),
            ("comments", Json.arr (r.comments.map Comment.toJson))]

/-- One HTTP GET request as issued by `requests.get(url, params=params,
headers=headers)`. -/
structure Request where
  url : String
  params : List (String × String)
  headers : List (String × String)

/-- An HTTP response: its status code and the result of
`response.json()` (`Except.error` when the body is not valid JSON). -/
structure HttpResponse where
  status : Nat
  jsonBody : Except String Json

/-- The transport: what response the network returns for each request.
Quantifying theorems over `World` quantifies over all HTTP behaviours. -/
def World : Type :=
  Request → HttpResponse

/-- The host event sink `__event_emitter__`.  It sees the list of events
already delivered (so its behaviour may vary call by call) and the new
event; `some msg` models the sink raising an exception with message
`msg`, `none` a normal return. -/
def Sink : Type :=
  List Json → Json → Option String

/-- The `Jira` client object: its `base_url` and the headers computed by
`__init__` via `authenticate`. -/
structure Jira where
  base_url : String
  headers : List (String × String)

/-- `Jira.authenticate`: the Basic-Auth header dict,
`"Basic " + base64(username + ":" + api_key)` plus the content type. -/
def Jira.authenticate (username api_key : String) : List (String × String) :=
  [("Authorization", "Basic " ++ b64ofString (username ++ ":" ++ api_key)),
   ("Content-Type", "application/json")]

/-- `Jira.__init__`. -/
def Jira.make (username api_key base_url : String) : Jira :=
  { base_url := base_url, headers := Jira.authenticate username api_key }

/-- `Jira.get`: builds the URL from the base URL and the fixed
`/rest/api/3/` prefix, issues the request, calls
`response.raise_for_status()` (which raises exactly for statuses in
[400, 600)), then `response.json()`.  Returns the outcome together with
the request that was issued. -/
def Jira.get (j : Jira) (world : World) (endpoint : String)
    (params : List (String × String) := []) : Except String Json × Request :=
  let url := j.base_url ++ "/rest/api/3/" ++ endpoint
  let req : Request := { url := url, params := params, headers := j.headers }
  let resp := world req
  if 400 ≤ resp.status ∧ resp.status < 600 then
    (Except.error ("HTTPError " ++ toString resp.status), req)
  else
    (resp.jsonBody, req)

/-- The body of the `for comment in ...` loop in `Jira.get_comments`:
`comment["author"]["displayName"]`, `comment["body"]`,
`comment["created"]`, in Python's evaluation order. -/
def commentFromJson (c : Json) : Except String Comment :=
  match c.getKey "author" with
  | Except.error e => Except.error e
  | Except.ok author =>
  match author.getKey "displayName" with
  | Except.error e => Except.error e
  | Except.ok displayName =>
  match c.getKey "body" with
  | Except.error e => Except.error e
  | Except.ok body =>
  match c.getKey "created" with
  | Except.error e => Except.error e
  | Except.ok created =>
    Except.ok { author := displayName, body := body, created := created }

/-- `Jira.get_comments`: one GET on `issue/{issue_id}/comment` (no
params), then `result.get("comments", [])` iterated in order, building
one entry per comment; the first failing access aborts the whole list
(the Python loop raises there). -/
def Jira.get_comments (j : Jira) (world : World) (issue_id : String) :
    Except String (List Comment) × Request :=
  let endpoint := "issue/" ++ issue_id ++ "/comment"
  match j.get world endpoint with
  | (Except.error e, req) => (Except.error e, req)
  | (Except.ok result, req) =>
    let comments : Except String (List Comment) :=
      match result.getDefault "comments" (Json.arr []) with
      | Except.error e => Except.error e
      | Except.ok raw =>
      match raw.iterList with
      | Except.error e => Except.error e
      | Except.ok items => items.mapM commentFromJson
    (comments, req)

/-- The return-dict construction of `Jira.get_issue`: the field accesses
`result["fields"]["summary"]`, `result["renderedFields"]["description"]`,
`result["fields"]["status"]["name"]` in Python's evaluation order, each of
which can raise; the link is synthesized from the base URL and the issue
id, and the already-fetched comments are attached. -/
def buildRecord (j : Jira) (issue_id : String) (result : Json) (comments : List Comment) :
    Except String IssueRecord :=
  match result.getKey "fields" with
  | Except.error e => Except.error e
  | Except.ok fields =>
  match fields.getKey "summary" with
  | Except.error e => Except.error e
  | Except.ok title =>
  match result.getKey "renderedFields" with
  | Except.error e => Except.error e
  | Except.ok rendered =>
  match rendered.getKey "description" with
  | Except.error e => Except.error e
  | Except.ok description =>
  match fields.getKey "status" with
  | Except.error e => Except.error e
  | Except.ok statusObj =>
  match statusObj.getKey "name" with
  | Except.error e => Except.error e
  | Except.ok statusName =>
    Except.ok { title := title, description := description, status := statusName,
                link := j.base_url ++ "/browse/" ++ issue_id, comments := comments }

/-- `Jira.get_issue`: GET `issue/{issue_id}` with the fields/expand
params, then `get_comments`, then the return-dict construction
(`buildRecord`), which runs only after both HTTP calls.  Also returns
the list of requests issued, in order. -/
def Jira.get_issue (j : Jira) (world : World) (issue_id : String) :
    Except String IssueRecord × List Request :=
  let endpoint := "issue/" ++ issue_id
  match j.get world endpoint
      [("fields", "summary,description,status"), ("expand", "renderedFields")] with
  | (Except.error e, req1) => (Except.error e, [req1])
  | (Except.ok result, req1) =>
  match j.get_comments world issue_id with
  | (Except.error e, req2) => (Except.error e, [req1, req2])
  | (Except.ok comments, req2) =>
    (buildRecord j issue_id result comments, [req1, req2])

/-- The module-level switch `EMIT_EVENTS = False`.  It is a plain
module constant; nothing in the module ever rebinds it. -/
def EMIT_EVENTS : Bool :=
  false

/-- The event dict built by `EventEmitter.emit_status`.  The Python
idiom `done and (error and A or B) or C` over a bool and non-empty
string literals selects `A` when both are truthy, `B` when only `done`
is, and `C` when `done` is falsy; the same idiom picks the status
string. -/
def EventEmitter.emit_status (description : String) (done : Bool) (error : Bool := false) :
    Json :=
  Json.obj
    [("data", Json.obj
      [("description",
        Json.str ((if done then (if error then "❌" else "✅") else "🔎") ++ " " ++ description)),
       ("status", Json.str (if done then "complete" else "in_progress")),
       ("done", Json.bool done)]),
     ("type", Json.str "status")]

/-- The event dict built by `EventEmitter.emit_message`. -/
def EventEmitter.emit_message (content : String) : Json :=
  Json.obj [("data", Json.obj [("content", Json.str content)]), ("type", Json.str "message")]

/-- The event dict built by `EventEmitter.emit_source`.  The name, url
and content arguments are embedded verbatim (the call site passes raw
JSON values from the fetched issue). -/
def EventEmitter.emit_source (name url content : Json) (html : Bool := false) : Json :=
  Json.obj
    [("type", Json.str "citation"),
     ("data", Json.obj
       [("document", Json.arr [content]),
        ("metadata", Json.arr [Json.obj [("source", url), ("html", Json.bool html)]]),
        ("source", Json.obj [("name", name)])])]

/-- One `await self.event_emitter(event)` call: the sink is invoked with
the event; the trace of events handed to the sink grows by one either
way, and a `some msg` reply models the sink raising. -/
def runEmit (sink : Sink) (events : List Json) (ev : Json) :
    Except String Unit × List Json :=
  match sink events ev with
  | none => (Except.ok (), events ++ [ev])
  | some msg => (Except.error msg, events ++ [ev])

/-- The `Valves` configuration model: username, API key, base URL. -/
structure Valves where
  username : String
  api_key : String
  base_url : String

/-- The default `Valves` placeholder values. -/
def defaultValves : Valves :=
  { username := "<user>@<org>.ai", api_key := "<key>",
    base_url := "https://<org>.atlassian.net/" }

/-- The f-string for one comment inside the entry point:
`f"**{comment['author']}** ({comment['created']}): {comment['body']}"`. -/
def fmtComment (c : Comment) : String :=
  "**" ++ pyStr c.author ++ "** (" ++ pyStr c.created ++ "): " ++ pyStr c.body

/-- The outcome of one call to the entry point: the value returned (or
`Except.error` when an exception escapes the function), the HTTP
requests issued, and the events handed to the sink, in order. -/
structure RunResult where
  result : Except String String
  requests : List Request
  events : List Json

/-- The `except Exception as e` block of `Tools.get_issue`: when events
are enabled it first awaits a failed-status emit — whose own failure
escapes the function — and then returns `f"Error: {e}"`. -/
def Tools.exceptBlock (emitEvents : Bool) (sink : Sink) (issue_id : String)
    (reqs : List Request) (events : List Json) (e : String) : RunResult :=
  if emitEvents then
    match runEmit sink events
        (EventEmitter.emit_status ("Failed to get issue " ++ issue_id ++ ": " ++ e) true true) with
    | (Except.ok _, events2) => ⟨Except.ok ("Error: " ++ e), reqs, events2⟩
    | (Except.error e2, events2) => ⟨Except.error e2, reqs, events2⟩
  else
    ⟨Except.ok ("Error: " ++ e), reqs, events⟩

/-- `Tools.get_issue`, the async entry point.  `emitEvents` is the value
of the module switch `EMIT_EVENTS` read at each gate (the shipped module
fixes it to `false`); `v` is `self.valves`; `sink` is
`__event_emitter__`.  The body mirrors the `try` block: gated start
status, the fetch, gated citation emit, gated comments message when the
comment list is non-empty, gated done status, then
`json.dumps(response, indent=2)`; any raise routes to
`Tools.exceptBlock`. -/
def Tools.get_issue (emitEvents : Bool) (v : Valves) (sink : Sink) (world : World)
    (issue_id : String) : RunResult :=
  let jira := Jira.make v.username v.api_key v.base_url
  let s1 :=
    if emitEvents then
      runEmit sink [] (EventEmitter.emit_status ("Getting issue " ++ issue_id) false)
    else (Except.ok (), [])
  match s1 with
  | (Except.error e, events) => Tools.exceptBlock emitEvents sink issue_id [] events e
  | (Except.ok _, events) =>
  match jira.get_issue world issue_id with
  | (Except.error e, reqs) => Tools.exceptBlock emitEvents sink issue_id reqs events e
  | (Except.ok response, reqs) =>
    let s2 :=
      if emitEvents then
        runEmit sink events
          (EventEmitter.emit_source response.title (Json.str response.link)
            response.description true)
      else (Except.ok (), events)
    match s2 with
    | (Except.error e, events2) => Tools.exceptBlock emitEvents sink issue_id reqs events2 e
    | (Except.ok _, events2) =>
      let s3 :=
        if response.comments.isEmpty then (Except.ok (), events2)
        else
          let comments_content := pyJoin "\n\n" (response.comments.map fmtComment)
          if emitEvents then
            runEmit sink events2 (EventEmitter.emit_message ("Comments:\n\n" ++ comments_content))
          else (Except.ok (), events2)
      match s3 with
      | (Except.error e, events3) => Tools.exceptBlock emitEvents sink issue_id reqs events3 e
      | (Except.ok _, events3) =>
        let s4 :=
          if emitEvents then
            runEmit sink events3 (EventEmitter.emit_status ("Got issue " ++ issue_id) true)
          else (Except.ok (), events3)
        match s4 with
        | (Except.error e, events4) => Tools.exceptBlock emitEvents sink issue_id reqs events4 e
        | (Except.ok _, events4) =>
          ⟨Except.ok (pyJsonDumps response.toJson), reqs, events4⟩

/-- The request `Jira.get` issues for the issue-fields endpoint. -/
def issueRequest (j : Jira) (issue_id : String) : Request :=
  { url := j.base_url ++ "/rest/api/3/" ++ ("issue/" ++ issue_id),
    params := [("fields", "summary,description,status"), ("expand", "renderedFields")],
    headers := j.headers }

/-- The request `Jira.get` issues for the comments endpoint. -/
def commentsRequest (j : Jira) (issue_id : String) : Request :=
  { url := j.base_url ++ "/rest/api/3/" ++ ("issue/" ++ issue_id ++ "/comment"),
    params := [], headers := j.headers }

/-- The `type` tag of an event dict, when present as a string. -/
def eventType (e : Json) : Option String :=
  match e with
  | Json.obj kvs =>
    match kvs.lookup "type" with
    | some (Json.str t) => some t
    | _ => none
  | _ => none

/-- A field of an event's `data` dict. -/
def eventDataField (e : Json) (k : String) : Option Json :=
  match e with
  | Json.obj kvs =>
    match kvs.lookup "data" with
    | some (Json.obj dkvs) => dkvs.lookup k
    | _ => none
  | _ => none

/-- The events of a trace whose `type` tag is `"message"`. -/
def messageEvents (evs : List Json) : List Json :=
  evs.filter (fun e => eventType e = some "message")

/-- `needle` occurs contiguously inside `hay`. -/
def Substr (needle hay : String) : Prop :=
  ∃ l r, hay = l ++ needle ++ r

/-- A sink that never fails. -/
def sinkOk : Sink :=
  fun _ _ => none

/-- A sink that raises `boom` on its first call and succeeds afterwards. -/
def sinkFailFirst : Sink :=
  fun evs _ => if evs.isEmpty then some "boom" else none

/-- A well-formed issue-fields response body. -/
def issueBodyOK : Json :=
  Json.obj
    [("fields", Json.obj [("summary", Json.str "A title"),
                          ("status", Json.obj [("name", Json.str "Open")])]),
     ("renderedFields", Json.obj [("description", Json.str "<p>desc</p>")])]

/-- A source-API comment entry. -/
def commentJson1 : Json :=
  Json.obj [("author", Json.obj [("displayName", Json.str "Alice")]),
            ("body", Json.str "first body"), ("created", Json.str "2024-01-01")]

/-- A comments response body holding one comment. -/
def commentsBodyOK : Json :=
  Json.obj [("comments", Json.arr [commentJson1])]

/-- A transport answering both endpoints with status 200 and well-formed
bodies (one comment).  The comments request is the one sent without
query parameters. -/
def worldOK : World := fun req =>
  if req.params.isEmpty then { status := 200, jsonBody := Except.ok commentsBodyOK }
  else { status := 200, jsonBody := Except.ok issueBodyOK }

/-- The comment record extracted from `commentJson1`. -/
def comment1 : Comment :=
  { author := Json.str "Alice", body := Json.str "first body",
    created := Json.str "2024-01-01" }

/-- The issue record fetched from `worldOK` under the default valves. -/
def rec1 : IssueRecord :=
  { title := Json.str "A title", description := Json.str "<p>desc</p>",
    status := Json.str "Open",
    link := "https://<org>.atlassian.net//browse/ABC-1", comments := [comment1] }

/-- A transport answering both endpoints with the non-2xx status 300 and
well-formed bodies (`raise_for_status` does not raise on 3xx); the
comments body has no `comments` key. -/
def world300 : World := fun req =>
  if req.params.isEmpty then { status := 300, jsonBody := Except.ok (Json.obj []) }
  else { status := 300, jsonBody := Except.ok issueBodyOK }

/-- The issue record fetched from `world300`: no comments. -/
def recNoComments : IssueRecord :=
  { title := Json.str "A title", description := Json.str "<p>desc</p>",
    status := Json.str "Open",
    link := "https://<org>.atlassian.net//browse/ABC-1", comments := [] }

/-- A transport whose issue body carries `"summary": null` (legal JSON
the code copies verbatim into the record's title). -/
def worldNullTitle : World := fun req =>
  if req.params.isEmpty then { status := 200, jsonBody := Except.ok (Json.obj []) }
  else
    { status := 200, jsonBody := Except.ok (Json.obj
        [("fields", Json.obj [("summary", Json.null),
                              ("status", Json.obj [("name", Json.str "Open")])]),
         ("renderedFields", Json.obj [("description", Json.str "<p>desc</p>")])]) }

/-- The issue record fetched from `worldNullTitle`: a null title. -/
def recNullTitle : IssueRecord :=
  { title := Json.null, description := Json.str "<p>desc</p>",
    status := Json.str "Open",
    link := "https://<org>.atlassian.net//browse/ABC-1", comments := [] }

/-- A transport that answers every request with status 404. -/
def world404 : World :=
  fun _ => { status := 404, jsonBody := Except.error "JSONDecodeError" }

/-- A transport where the issue call succeeds but the comments call
(the parameterless one) answers 404. -/
def worldCommentsFail : World := fun req =>
  if req.params.isEmpty then { status := 404, jsonBody := Except.error "JSONDecodeError" }
  else { status := 200, jsonBody := Except.ok issueBodyOK }

/-- Placeholder comment used with `List.getD`. -/
def defaultComment : Comment :=
  { author := Json.null, body := Json.null, created := Json.null }

/-- With the event switch off, the entry point reduces to the bare
fetch: an empty event trace, and either the JSON dump or the flattened
error string. -/
theorem run_false_spec (v : Valves) (sink : Sink) (world : World) (issue_id : String) :
    Tools.get_issue false v sink world issue_id =
      (match (Jira.make v.username v.api_key v.base_url).get_issue world issue_id with
       | (Except.error e, reqs) => ⟨Except.ok ("Error: " ++ e), reqs, []⟩
       | (Except.ok r, reqs) => ⟨Except.ok (pyJsonDumps r.toJson), reqs, []⟩) := by
  rcases hj : (Jira.make v.username v.api_key v.base_url).get_issue world issue_id with ⟨res, reqs⟩
  rcases res with e | r <;> simp [Tools.get_issue, hj, Tools.exceptBlock]

/-- With the event switch on and a sink that never fails, the entry
point returns the same value as with the switch off and hands the sink
the start status, the citation, the comments message exactly when the
comment list is non-empty, and the done status — or, on a fetch error,
the start status and the failed status. -/
theorem run_true_spec (v : Valves) (sink : Sink) (world : World) (issue_id : String)
    (hsink : ∀ evs e, sink evs e = none) :
    Tools.get_issue true v sink world issue_id =
      (match (Jira.make v.username v.api_key v.base_url).get_issue world issue_id with
       | (Except.error e, reqs) =>
         ⟨Except.ok ("Error: " ++ e), reqs,
          [EventEmitter.emit_status ("Getting issue " ++ issue_id) false,
           EventEmitter.emit_status ("Failed to get issue " ++ issue_id ++ ": " ++ e) true true]⟩
       | (Except.ok r, reqs) =>
         ⟨Except.ok (pyJsonDumps r.toJson), reqs,
          [EventEmitter.emit_status ("Getting issue " ++ issue_id) false,
           EventEmitter.emit_source r.title (Json.str r.link) r.description true]
          ++ (if r.comments.isEmpty then []
              else [EventEmitter.emit_message
                      ("Comments:\n\n" ++ pyJoin "\n\n" (r.comments.map fmtComment))])
          ++ [EventEmitter.emit_status ("Got issue " ++ issue_id) true]⟩) := by
  rcases hj : (Jira.make v.username v.api_key v.base_url).get_issue world issue_id with ⟨res, reqs⟩
  rcases res with e | r
  · simp [Tools.get_issue, hj, runEmit, hsink, Tools.exceptBlock]
  · cases hre : r.comments.isEmpty <;>
      simp [Tools.get_issue, hj, runEmit, hsink, Tools.exceptBlock, hre]

/-- An occurrence survives prepending. -/
theorem Substr.appL (s : String) {n t : String} (h : Substr n t) : Substr n (s ++ t) := by
  obtain ⟨l, r, rfl⟩ := h
  exact ⟨s ++ l, r, by simp [String.append_assoc]⟩

/-- An occurrence survives appending. -/
theorem Substr.appR (s : String) {n t : String} (h : Substr n t) : Substr n (t ++ s) := by
  obtain ⟨l, r, rfl⟩ := h
  exact ⟨l, r ++ s, by rw [String.append_assoc, String.append_assoc]⟩

/-- An occurrence inside an occurrence. -/
theorem Substr.trans {a b c : String} (h1 : Substr a b) (h2 : Substr b c) : Substr a c := by
  obtain ⟨l1, r1, rfl⟩ := h1
  obtain ⟨l2, r2, rfl⟩ := h2
  exact ⟨l2 ++ l1, r1 ++ r2, by simp [String.append_assoc]⟩

/-- Every list element occurs inside the separator join. -/
theorem substr_pyJoin {x : String} (sep : String) {parts : List String} (hx : x ∈ parts) :
    Substr x (pyJoin sep parts) := by
  induction parts with
  | nil => cases hx
  | cons y rest ih =>
    rcases List.mem_cons.mp hx with rfl | hx'
    · rcases rest with _ | ⟨z, rest'⟩
      · exact ⟨"", "", by simp [pyJoin]⟩
      · exact ⟨"", sep ++ pyJoin sep (z :: rest'), by simp [pyJoin, String.append_assoc]⟩
    · rcases rest with _ | ⟨z, rest'⟩
      · cases hx'
      · exact Substr.appL (y ++ sep) (ih hx')

/-- A successful `mapM` over `Except` has the input's length. -/
theorem mapM_ok_length {α β : Type} {f : α → Except String β} {xs : List α} {ys : List β}
    (h : List.mapM f xs = Except.ok ys) : ys.length = xs.length := by
  induction xs generalizing ys with
  | nil =>
    rw [List.mapM_nil] at h
    simp only [pure, Except.pure, Except.ok.injEq] at h
    simp [← h]
  | cons a as ih =>
    rw [List.mapM_cons] at h
    cases hfa : f a with
    | error e => rw [hfa] at h; simp [Bind.bind, Except.bind] at h
    | ok b =>
      rw [hfa] at h
      cases hrest : List.mapM f as with
      | error e => rw [hrest] at h; simp [Bind.bind, Except.bind] at h
      | ok bs =>
        rw [hrest] at h
        simp only [Bind.bind, Except.bind, pure, Except.pure, Except.ok.injEq] at h
        subst h
        simp [ih hrest]

/-- A successful `mapM` over `Except` is pointwise: the i-th output is
the image of the i-th input. -/
theorem mapM_ok_getD {α β : Type} {f : α → Except String β} {xs : List α} {ys : List β}
    (h : List.mapM f xs = Except.ok ys) (dx : α) (dy : β) :
    ∀ i, i < xs.length → f (xs.getD i dx) = Except.ok (ys.getD i dy) := by
  induction xs generalizing ys with
  | nil => intro i hi; cases hi
  | cons a as ih =>
    rw [List.mapM_cons] at h
    cases hfa : f a with
    | error e => rw [hfa] at h; simp [Bind.bind, Except.bind] at h
    | ok b =>
      rw [hfa] at h
      cases hrest : List.mapM f as with
      | error e => rw [hrest] at h; simp [Bind.bind, Except.bind] at h
      | ok bs =>
        rw [hrest] at h
        simp only [Bind.bind, Except.bind, pure, Except.pure, Except.ok.injEq] at h
        subst h
        intro i hi
        cases i with
        | zero => simpa using hfa
        | succ n => exact ih hrest n (by simpa using hi)

/-- A successfully built record carries the synthesized link and the
comments it was given. -/
theorem buildRecord_ok_inv {j : Jira} {issue_id : String} {result : Json}
    {comments : List Comment} {r : IssueRecord}
    (h : buildRecord j issue_id result comments = Except.ok r) :
    r.link = j.base_url ++ "/browse/" ++ issue_id ∧ r.comments = comments := by
  unfold buildRecord at h
  repeat' split at h
  all_goals simp_all
  all_goals subst h
  all_goals exact ⟨rfl, rfl⟩

/-- Inversion of a successful fetch: the record's link is the
synthesized browse link and its comments are exactly what
`get_comments` returned. -/
theorem get_issue_ok_inv {j : Jira} {world : World} {issue_id : String} {r : IssueRecord}
    (h : (j.get_issue world issue_id).1 = Except.ok r) :
    r.link = j.base_url ++ "/browse/" ++ issue_id ∧
    (j.get_comments world issue_id).1 = Except.ok r.comments := by
  unfold Jira.get_issue at h
  rcases hg1 : j.get world ("issue/" ++ issue_id)
      [("fields", "summary,description,status"), ("expand", "renderedFields")] with ⟨res1, req1⟩
  rcases res1 with e | result
  · simp [hg1] at h
  · rcases hg2 : j.get_comments world issue_id with ⟨res2, req2⟩
    rcases res2 with e | comments
    · simp [hg1, hg2] at h
    · simp only [hg1, hg2] at h
      have hb := buildRecord_ok_inv h
      exact ⟨hb.1, by simp [hg2, hb.2]⟩

/-- What `get_comments` returns over a 200 response with object body:
the `comments` key is looked up with default `[]`, the value is
iterated, and the loop body runs over the items in order. -/
theorem get_comments_spec {j : Jira} {world : World} {issue_id : String}
    {kvs : List (String × Json)}
    (hw : world (commentsRequest j issue_id) =
      { status := 200, jsonBody := Except.ok (Json.obj kvs) }) :
    (j.get_comments world issue_id).1 =
      (match kvs.lookup "comments" with
       | none => Except.ok []
       | some raw =>
         match raw.iterList with
         | Except.error e => Except.error e
         | Except.ok items => items.mapM commentFromJson) := by
  unfold Jira.get_comments Jira.get
  unfold commentsRequest at hw
  simp only [hw]
  cases hl : kvs.lookup "comments" with
  | none =>
    simp [Json.getDefault, hl, Json.iterList, List.mapM_nil, pure, Except.pure]
    rfl
  | some raw => simp [Json.getDefault, hl]

/-- The request `Jira.get` issues, whatever the outcome. -/
theorem get_request (j : Jira) (world : World) (endpoint : String)
    (params : List (String × String)) :
    (j.get world endpoint params).2 =
      { url := j.base_url ++ "/rest/api/3/" ++ endpoint, params := params,
        headers := j.headers } := by
  unfold Jira.get
  dsimp only []
  split <;> rfl

/-- The request `Jira.get_comments` issues, whatever the outcome. -/
theorem get_comments_request (j : Jira) (world : World) (issue_id : String) :
    (j.get_comments world issue_id).2 = commentsRequest j issue_id := by
  unfold Jira.get_comments
  rcases hg : j.get world ("issue/" ++ issue_id ++ "/comment") with ⟨res, req⟩
  have h := get_request j world ("issue/" ++ issue_id ++ "/comment") []
  rw [hg] at h
  rcases res with e | result <;> simp [hg] <;> exact h

/-- The comment's author rendering occurs inside its formatted line. -/
theorem substr_author_fmt (c : Comment) : Substr (pyStr c.author) (fmtComment c) :=
  ⟨"**", "** (" ++ pyStr c.created ++ "): " ++ pyStr c.body,
   by simp [fmtComment, String.append_assoc]⟩

/-- The comment's body rendering occurs inside its formatted line. -/
theorem substr_body_fmt (c : Comment) : Substr (pyStr c.body) (fmtComment c) :=
  ⟨"**" ++ pyStr c.author ++ "** (" ++ pyStr c.created ++ "): ", "",
   by simp [fmtComment, String.append_assoc]⟩

/-- C1, counterexample.  The claim counts every non-2xx HTTP response as
an exception that forces an `"Error: "` return, but
`response.raise_for_status()` raises only for statuses in [400, 600): a
transport answering 300 with parseable bodies on both calls drives
`Tools.get_issue` (module switch `EMIT_EVENTS`) to a normal JSON result
that does not start with `"Error: "`. -/
theorem C1_counterexample :
    (world300 (issueRequest (Jira.make defaultValves.username defaultValves.api_key
        defaultValves.base_url) "ABC-1")).status = 300 ∧
    (world300 (commentsRequest (Jira.make defaultValves.username defaultValves.api_key
        defaultValves.base_url) "ABC-1")).status = 300 ∧
    (Tools.get_issue EMIT_EVENTS defaultValves sinkOk world300 "ABC-1").result =
      Except.ok (pyJsonDumps recNoComments.toJson) ∧
    (pyJsonDumps recNoComments.toJson).data.take 7 ≠ "Error: ".data :=
  ⟨rfl, rfl, rfl, by decide⟩

/-- C1, amended: for every call to the entry point `Tools.get_issue`
(with the module's event switch), any exception arising during the
operation — a 4xx/5xx HTTP response from either Jira call (the statuses
`raise_for_status` raises on), or a malformed/missing JSON field — is
caught inside the entry point, which returns `"Error: "` followed by the
error's message; the function never lets an exception escape to its
caller.  (3xx responses do not raise and are processed as success when
their body parses.) -/
theorem C1_entry_never_raises (v : Valves) (sink : Sink) (world : World) (issue_id : String) :
    (Tools.get_issue EMIT_EVENTS v sink world issue_id).result.isOk = true ∧
    (∀ e, ((Jira.make v.username v.api_key v.base_url).get_issue world issue_id).1 =
        Except.error e →
      (Tools.get_issue EMIT_EVENTS v sink world issue_id).result =
        Except.ok ("Error: " ++ e)) := by
  have hE : EMIT_EVENTS = false := rfl
  rw [hE, run_false_spec]
  rcases hj : (Jira.make v.username v.api_key v.base_url).get_issue world issue_id with ⟨res, reqs⟩
  rcases res with e | r
  · refine ⟨rfl, ?_⟩
    intro e' he'
    simp at he'
    subst he'
    rfl
  · refine ⟨rfl, ?_⟩
    intro e' he'
    simp at he'

/-- C1, witness for the amended theorem: under a transport answering
404 everywhere, the entry point returns the flattened error string and
does not raise. -/
theorem C1_entry_never_raises_witness :
    (Tools.get_issue EMIT_EVENTS defaultValves sinkOk world404 "ABC-1").result.isOk = true ∧
    (Tools.get_issue EMIT_EVENTS defaultValves sinkOk world404 "ABC-1").result =
      Except.ok ("Error: " ++ "HTTPError 404") :=
  have h := C1_entry_never_raises defaultValves sinkOk world404 "ABC-1"
  ⟨h.1, h.2 "HTTPError 404" rfl⟩

/-- C2, counterexample.  The claim compares an enabled and a disabled
run over identical HTTP responses without restricting the sink: with a
sink that raises on its first call, the enabled run returns
`"Error: boom"` while the disabled run returns the issue JSON, so the
returned strings differ. -/
theorem C2_counterexample :
    (Tools.get_issue true defaultValves sinkFailFirst worldOK "ABC-1").result =
      Except.ok "Error: boom" ∧
    (Tools.get_issue false defaultValves sinkFailFirst worldOK "ABC-1").result =
      Except.ok (pyJsonDumps rec1.toJson) ∧
    ("Error: boom" : String) ≠ pyJsonDumps rec1.toJson :=
  ⟨rfl, rfl, by decide⟩

/-- C2, amended: for every issue ID and every pair of runs of
`Tools.get_issue` receiving identical HTTP responses, the run with the
switch disabled makes zero calls to the host sink on both the success
and the failure path, and — provided the sink never fails — its
returned JSON/error string equals the one returned by the run with the
switch enabled. -/
theorem C2_gating (v : Valves) (sink : Sink) (world : World) (issue_id : String)
    (hsink : ∀ evs e, sink evs e = none) :
    (Tools.get_issue false v sink world issue_id).events = [] ∧
    (Tools.get_issue false v sink world issue_id).result =
      (Tools.get_issue true v sink world issue_id).result := by
  rw [run_false_spec, run_true_spec v sink world issue_id hsink]
  rcases hj : (Jira.make v.username v.api_key v.base_url).get_issue world issue_id with ⟨res, reqs⟩
  rcases res with e | r <;> simp [hj]

/-- C2, witness: concrete runs over `worldOK` with a never-failing
sink. -/
theorem C2_gating_witness :
    (Tools.get_issue false defaultValves sinkOk worldOK "ABC-1").events = [] ∧
    (Tools.get_issue false defaultValves sinkOk worldOK "ABC-1").result =
      (Tools.get_issue true defaultValves sinkOk worldOK "ABC-1").result :=
  C2_gating defaultValves sinkOk worldOK "ABC-1" (fun _ _ => rfl)

/-- C3: for every successful call with events enabled (fetch succeeded
and the sink never fails), no `"message"` event is handed to the sink
when the fetched comments list is empty; when it is non-empty, exactly
one `"message"` event is handed over, and its content string contains
every comment's rendered author and body as substrings. -/
theorem C3_message_events (v : Valves) (sink : Sink) (world : World) (issue_id : String)
    (r : IssueRecord)
    (hfetch : ((Jira.make v.username v.api_key v.base_url).get_issue world issue_id).1 =
      Except.ok r)
    (hsink : ∀ evs e, sink evs e = none) :
    (Tools.get_issue true v sink world issue_id).result =
      Except.ok (pyJsonDumps r.toJson) ∧
    (r.comments = [] →
      messageEvents (Tools.get_issue true v sink world issue_id).events = []) ∧
    (r.comments ≠ [] →
      messageEvents (Tools.get_issue true v sink world issue_id).events =
        [EventEmitter.emit_message
          ("Comments:\n\n" ++ pyJoin "\n\n" (r.comments.map fmtComment))]) ∧
    (∀ c ∈ r.comments,
      Substr (pyStr c.author)
        ("Comments:\n\n" ++ pyJoin "\n\n" (r.comments.map fmtComment)) ∧
      Substr (pyStr c.body)
        ("Comments:\n\n" ++ pyJoin "\n\n" (r.comments.map fmtComment))) := by
  rw [run_true_spec v sink world issue_id hsink]
  rcases hj : (Jira.make v.username v.api_key v.base_url).get_issue world issue_id with ⟨res, reqs⟩
  rw [hj] at hfetch
  rcases res with e | r'
  · simp at hfetch
  · simp only [Prod.fst] at hfetch
    injection hfetch with hfetch
    subst hfetch
    refine ⟨rfl, ?_, ?_, ?_⟩
    · intro hc
      simp [messageEvents, hc, eventType, EventEmitter.emit_status,
            EventEmitter.emit_source, List.lookup]
    · intro hc
      have hce : r'.comments.isEmpty = false := by
        cases hcc : r'.comments <;> simp_all
      simp [messageEvents, hce, eventType, EventEmitter.emit_status,
            EventEmitter.emit_source, EventEmitter.emit_message, List.lookup]
    · intro c hc
      have hmem : fmtComment c ∈ r'.comments.map fmtComment :=
        List.mem_map_of_mem fmtComment hc
      have hjoin := substr_pyJoin "\n\n" hmem
      exact ⟨Substr.appL "Comments:\n\n" ((substr_author_fmt c).trans hjoin),
             Substr.appL "Comments:\n\n" ((substr_body_fmt c).trans hjoin)⟩

/-- C3, witness: over `worldOK` (one comment by Alice) with events
enabled and a never-failing sink, exactly the one expected message event
is handed to the sink, and Alice's name occurs in its content. -/
theorem C3_message_events_witness :
    messageEvents (Tools.get_issue true defaultValves sinkOk worldOK "ABC-1").events =
      [EventEmitter.emit_message
        ("Comments:\n\n" ++ pyJoin "\n\n" ([comment1].map fmtComment))] ∧
    Substr (pyStr comment1.author)
      ("Comments:\n\n" ++ pyJoin "\n\n" ([comment1].map fmtComment)) := by
  have h := C3_message_events defaultValves sinkOk worldOK "ABC-1" rec1 rfl (fun _ _ => rfl)
  exact ⟨h.2.2.1 (by simp [rec1]), (h.2.2.2 comment1 (by simp [rec1])).1⟩

/-- C4: every request issued by `Jira.get` carries the Authorization
header `"Basic " + base64(username + ":" + api_key)`, independent of the
endpoint and params; and for username `bot`, key `secret` that header
value is `"Basic Ym90OnNlY3JldA=="`. -/
theorem C4_auth_header (username api_key base_url : String) (world : World)
    (endpoint : String) (params : List (String × String)) :
    (((Jira.make username api_key base_url).get world endpoint params).2.headers.lookup
        "Authorization" =
      some ("Basic " ++ b64ofString (username ++ ":" ++ api_key))) ∧
    ("Basic " ++ b64ofString ("bot" ++ ":" ++ "secret") = "Basic Ym90OnNlY3JldA==") := by
  refine ⟨?_, by decide⟩
  rw [get_request]
  rfl

/-- C5: every successfully fetched issue record's link equals the base
URL, `"/browse/"`, and the issue ID concatenated, whatever the HTTP
responses contained. -/
theorem C5_link (username api_key base_url : String) (world : World) (issue_id : String)
    (r : IssueRecord)
    (h : ((Jira.make username api_key base_url).get_issue world issue_id).1 = Except.ok r) :
    r.link = base_url ++ "/browse/" ++ issue_id :=
  (get_issue_ok_inv h).1

/-- C5, witness: the record fetched from `worldOK`. -/
theorem C5_link_witness :
    rec1.link = defaultValves.base_url ++ "/browse/" ++ "ABC-1" :=
  C5_link defaultValves.username defaultValves.api_key defaultValves.base_url
    worldOK "ABC-1" rec1 rfl

/-- C6: when the fetch and the comment fetch succeed with N comments,
the entry point (module switch) returns the 2-space-indented
`json.dumps` of a JSON object whose keys are exactly title, description,
status, link, comments; the comments value is a list of length N whose
elements each have exactly the keys author, body, created. -/
theorem C6_result_shape (v : Valves) (sink : Sink) (world : World) (issue_id : String)
    (r : IssueRecord) (cs : List Comment)
    (hfetch : ((Jira.make v.username v.api_key v.base_url).get_issue world issue_id).1 =
      Except.ok r)
    (hcomments : ((Jira.make v.username v.api_key v.base_url).get_comments world
        issue_id).1 = Except.ok cs) :
    (Tools.get_issue EMIT_EVENTS v sink world issue_id).result =
      Except.ok (pyJsonDumps r.toJson) ∧
    Json.objKeys r.toJson = ["title", "description", "status", "link", "comments"] ∧
    r.comments = cs ∧
    (r.comments.map Comment.toJson).length = cs.length ∧
    (∀ c ∈ r.comments, Json.objKeys c.toJson = ["author", "body", "created"]) := by
  have hcs : r.comments = cs := by
    have h2 := (get_issue_ok_inv hfetch).2
    rw [hcomments] at h2
    exact (Except.ok.inj h2).symm
  refine ⟨?_, rfl, hcs, by rw [hcs]; simp, fun c _ => rfl⟩
  have hE : EMIT_EVENTS = false := rfl
  rw [hE, run_false_spec]
  rcases hj : (Jira.make v.username v.api_key v.base_url).get_issue world issue_id with ⟨res, reqs⟩
  rw [hj] at hfetch
  rcases res with e | r2
  · simp at hfetch
  · have h2 : r2 = r := by simpa using hfetch
    rw [h2]

/-- C6, witness: the concrete run over `worldOK` with its one
comment. -/
theorem C6_result_shape_witness :
    (Tools.get_issue EMIT_EVENTS defaultValves sinkOk worldOK "ABC-1").result =
      Except.ok (pyJsonDumps rec1.toJson) ∧
    rec1.comments = [comment1] :=
  have h := C6_result_shape defaultValves sinkOk worldOK "ABC-1" rec1 [comment1] rfl rfl
  ⟨h.1, h.2.2.1⟩

/-- C7, counterexample.  The claim says a successfully constructed
record's title is non-null, but the code copies
`result["fields"]["summary"]` verbatim: a response carrying
`"summary": null` yields a successful fetch whose record has a null
title. -/
theorem C7_counterexample :
    ((Jira.make defaultValves.username defaultValves.api_key
        defaultValves.base_url).get_issue worldNullTitle "ABC-1").1 =
      Except.ok recNullTitle ∧
    recNullTitle.title = Json.null :=
  ⟨rfl, rfl⟩

/-- C7, amended: for every successfully constructed issue record, the
link is a non-null string and the comments key is present (an empty
list, not absent, when there are none — including when the `comments`
key is missing from the comment-endpoint response), and the comments
order equals the order the source API returned; title and status are
the source JSON values copied verbatim and may be null when the source
returns null. -/
theorem C7_record_invariants (username api_key base_url : String) (world : World)
    (issue_id : String) :
    (∀ r, ((Jira.make username api_key base_url).get_issue world issue_id).1 =
        Except.ok r →
      r.toJson.getKey "link" = Except.ok (Json.str r.link) ∧
      r.toJson.getKey "comments" =
        Except.ok (Json.arr (r.comments.map Comment.toJson))) ∧
    (∀ r kvs, ((Jira.make username api_key base_url).get_issue world issue_id).1 =
        Except.ok r →
      world (commentsRequest (Jira.make username api_key base_url) issue_id) =
        { status := 200, jsonBody := Except.ok (Json.obj kvs) } →
      kvs.lookup "comments" = none → r.comments = []) ∧
    (∀ kvs xs cs,
      world (commentsRequest (Jira.make username api_key base_url) issue_id) =
        { status := 200, jsonBody := Except.ok (Json.obj kvs) } →
      kvs.lookup "comments" = some (Json.arr xs) →
      ((Jira.make username api_key base_url).get_comments world issue_id).1 =
        Except.ok cs →
      cs.length = xs.length ∧
      ∀ i, i < xs.length →
        commentFromJson (xs.getD i Json.null) = Except.ok (cs.getD i defaultComment)) := by
  refine ⟨fun r _ => ⟨rfl, rfl⟩, ?_, ?_⟩
  · intro r kvs hr hw hk
    have h2 := (get_issue_ok_inv hr).2
    rw [get_comments_spec hw, hk] at h2
    exact (Except.ok.inj h2).symm
  · intro kvs xs cs hw hk hc
    rw [get_comments_spec hw, hk] at hc
    simp only [Json.iterList] at hc
    exact ⟨mapM_ok_length hc, mapM_ok_getD hc Json.null defaultComment⟩

/-- C7, witness for the amended theorem: over `worldOK` the single
source comment maps pointwise, in order, to the single record
comment. -/
theorem C7_record_invariants_witness :
    ([comment1] : List Comment).length = ([commentJson1] : List Json).length ∧
    commentFromJson commentJson1 = Except.ok comment1 := by
  have h := (C7_record_invariants defaultValves.username defaultValves.api_key
      defaultValves.base_url worldOK "ABC-1").2.2
      [("comments", Json.arr [commentJson1])] [commentJson1] [comment1] rfl rfl rfl
  exact ⟨h.1, by simpa using h.2 0 (by simp)⟩

/-- C8: the fetch issues at most two HTTP round trips; when the first
(issue-fields) call succeeds they are exactly the issue request then the
comments request, in that order; and whenever the comment fetch fails,
the fetch returns that failure — no record is built, so no partial
issue without comments is ever produced. -/
theorem C8_two_round_trips (username api_key base_url : String) (world : World)
    (issue_id : String) :
    ((Jira.make username api_key base_url).get_issue world issue_id).2.length ≤ 2 ∧
    (∀ x, ((Jira.make username api_key base_url).get world ("issue/" ++ issue_id)
        [("fields", "summary,description,status"), ("expand", "renderedFields")]).1 =
          Except.ok x →
      ((Jira.make username api_key base_url).get_issue world issue_id).2 =
        [issueRequest (Jira.make username api_key base_url) issue_id,
         commentsRequest (Jira.make username api_key base_url) issue_id]) ∧
    (∀ e, ((Jira.make username api_key base_url).get_comments world issue_id).1 =
        Except.error e →
      ∀ x, ((Jira.make username api_key base_url).get world ("issue/" ++ issue_id)
        [("fields", "summary,description,status"), ("expand", "renderedFields")]).1 =
          Except.ok x →
      ((Jira.make username api_key base_url).get_issue world issue_id).1 =
        Except.error e) := by
  have hreq1 := get_request (Jira.make username api_key base_url) world ("issue/" ++ issue_id)
    [("fields", "summary,description,status"), ("expand", "renderedFields")]
  have hreq2 := get_comments_request (Jira.make username api_key base_url) world issue_id
  rcases hg1 : (Jira.make username api_key base_url).get world ("issue/" ++ issue_id)
      [("fields", "summary,description,status"), ("expand", "renderedFields")] with
    ⟨res1, req1⟩
  rcases hg2 : (Jira.make username api_key base_url).get_comments world issue_id with
    ⟨res2, req2⟩
  rw [hg1] at hreq1
  rw [hg2] at hreq2
  simp only [Prod.snd] at hreq1 hreq2
  rcases res1 with e1 | result
  · refine ⟨by simp [Jira.get_issue, hg1], ?_, ?_⟩
    · intro x hx
      simp at hx
    · intro e he x hx
      simp at hx
  · rcases res2 with e2 | comments
    · refine ⟨by simp [Jira.get_issue, hg1, hg2], ?_, ?_⟩
      · intro x _
        simp [Jira.get_issue, hg1, hg2, hreq1, hreq2, issueRequest]
      · intro e he x _
        simp at he
        subst he
        simp [Jira.get_issue, hg1, hg2]
    · refine ⟨by simp [Jira.get_issue, hg1, hg2], ?_, ?_⟩
      · intro x _
        simp [Jira.get_issue, hg1, hg2, hreq1, hreq2, issueRequest]
      · intro e he x _
        simp at he

/-- C8, witness: over a transport where the comments call answers 404,
the fetch issues both requests in order and returns the comments
failure, producing no record. -/
theorem C8_two_round_trips_witness :
    ((Jira.make defaultValves.username defaultValves.api_key
        defaultValves.base_url).get_issue worldCommentsFail "ABC-1").1 =
      Except.error "HTTPError 404" ∧
    ((Jira.make defaultValves.username defaultValves.api_key
        defaultValves.base_url).get_issue worldCommentsFail "ABC-1").2 =
      [issueRequest (Jira.make defaultValves.username defaultValves.api_key
          defaultValves.base_url) "ABC-1",
       commentsRequest (Jira.make defaultValves.username defaultValves.api_key
          defaultValves.base_url) "ABC-1"] :=
  have h := C8_two_round_trips defaultValves.username defaultValves.api_key
    defaultValves.base_url worldCommentsFail "ABC-1"
  ⟨h.2.2 "HTTPError 404" rfl issueBodyOK rfl, h.2.1 issueBodyOK rfl⟩

/-- C9: every event built by `emit_status` has type `"status"`; its
description carries the in-progress marker when `done` is false
(whatever `error` is), the failure marker when `done` and `error` are
both true, and the success marker when `done` is true and `error` is
false; and its `data.status` is `"complete"` exactly when `done` is
true (`"in_progress"` otherwise), with `data.done` mirroring `done`. -/
theorem C9_status_event (description : String) :
    (∀ done error, eventType (EventEmitter.emit_status description done error) =
      some "status") ∧
    eventDataField (EventEmitter.emit_status description false false) "description" =
      some (Json.str ("🔎 " ++ description)) ∧
    eventDataField (EventEmitter.emit_status description false true) "description" =
      some (Json.str ("🔎 " ++ description)) ∧
    eventDataField (EventEmitter.emit_status description true true) "description" =
      some (Json.str ("❌ " ++ description)) ∧
    eventDataField (EventEmitter.emit_status description true false) "description" =
      some (Json.str ("✅ " ++ description)) ∧
    (∀ done error,
      (eventDataField (EventEmitter.emit_status description done error) "status" =
        some (Json.str "complete")) ↔ done = true) ∧
    (∀ done error,
      eventDataField (EventEmitter.emit_status description done error) "status" =
        some (Json.str (if done then "complete" else "in_progress")) ∧
      eventDataField (EventEmitter.emit_status description done error) "done" =
        some (Json.bool done)) := by
  refine ⟨fun done error => rfl, rfl, rfl, rfl, rfl, ?_, ?_⟩
  · intro done error
    cases done <;>
      simp [eventDataField, EventEmitter.emit_status, List.lookup]
  · intro done error
    cases done <;> exact ⟨rfl, rfl⟩

/-- C10: the module ships with `EMIT_EVENTS` equal to the constant
`false` (a plain definition nothing rebinds), so in every execution of
`Tools.get_issue` with the module switch — success or failure, whatever
the transport and sink do — the host sink is never invoked: the event
trace is empty. -/
theorem C10_sink_never_called (v : Valves) (sink : Sink) (world : World)
    (issue_id : String) :
    EMIT_EVENTS = false ∧
    (Tools.get_issue EMIT_EVENTS v sink world issue_id).events = [] := by
  refine ⟨rfl, ?_⟩
  have hE : EMIT_EVENTS = false := rfl
  rw [hE, run_false_spec]
  rcases hj : (Jira.make v.username v.api_key v.base_url).get_issue world issue_id with
    ⟨res, reqs⟩
  rcases res with e | r <;> rfl
